import Mathlib

/-!
Verification of the content risk-scoring engine of the Job-Scams repository.

The engine lives in two JavaScript files:
  * backend/services/ml/scamDetectionService.js  (job-posting analysis)
  * backend/services/socialMediaMonitoringService.js  (social-post analysis)

This file gives a shallow embedding of those services in Lean.  JavaScript
numbers are modelled as rationals (ℚ); the JavaScript distinction between
`undefined`, `null` and a present value — which matters because destructuring
defaults apply only to `undefined` while `null` flows through and can make a
property access throw — is modelled by the `JsOpt` type.  Code that can throw
a `TypeError` is modelled in `Except String`.  External npm dependencies
(the `sentiment` polarity scorer, the JavaScript regular-expression engine,
and the `natural` Bayes classifier) are not part of the repository; their
outputs enter the embedding as explicit parameters, and the classifier's
state machine is modelled from the specification where noted.
-/

/-! ## JavaScript string primitives -/

/-- Lowercases one ASCII character, as `String.prototype.toLowerCase` does on
the ASCII texts handled by the services. -/
def lowerChar (c : Char) : Char :=
  if 65 ≤ c.toNat ∧ c.toNat ≤ 90 then Char.ofNat (c.toNat + 32) else c

/-- Model of `String.prototype.toLowerCase`. -/
def jsToLower (s : String) : String := String.mk (s.data.map lowerChar)

/-- Model of `Array.prototype.join(sep)` on an array of strings. -/
def jsJoin (sep : String) : List String → String
  | [] => ""
  | [x] => x
  | x :: y :: xs => x ++ sep ++ jsJoin sep (y :: xs)

/-- Character-list front matching, the building block of substring search. -/
def matchFront : List Char → List Char → Bool
  | [], _ => true
  | _ :: _, [] => false
  | a :: as, b :: bs => a == b && matchFront as bs

/-- Character-list substring search at any position. -/
def matchAnywhere : List Char → List Char → Bool
  | needle, [] => needle.isEmpty
  | needle, c :: rest => matchFront needle (c :: rest) || matchAnywhere needle rest

/-- Model of `String.prototype.includes(needle)`. -/
def strContains (hay needle : String) : Bool := matchAnywhere needle.data hay.data

/-- Model of `[...new Set(arr)]` on an array of strings: de-duplication that
keeps the first occurrence of each element, in order.  `seen` accumulates the
elements already emitted. -/
def dedupAux (seen : List String) : List String → List String
  | [] => []
  | x :: xs => if x ∈ seen then dedupAux seen xs else x :: dedupAux (x :: seen) xs

/-- De-duplication keeping first occurrences, i.e. `[...new Set(arr)]`. -/
def dedupKeepFirst (l : List String) : List String := dedupAux [] l

/-! ## JavaScript value model -/

/-- A JavaScript field that can be `undefined`, `null`, or a value.
Destructuring defaults (`const { title = '' } = obj`) replace only `undef`;
`null` flows through. -/
inductive JsOpt (α : Type) where
  | undef : JsOpt α
  | null : JsOpt α
  | val (a : α) : JsOpt α
deriving DecidableEq

/-- JavaScript truthiness of a numeric field: `undefined` and `null` are
falsy, a number is truthy iff it is nonzero (NaN does not arise here). -/
def truthyQ : JsOpt ℚ → Bool
  | JsOpt.val x => decide (¬ (x = 0))
  | _ => false

/-- The string a text field contributes to the merged array: an `undefined`
field is replaced by `''` by the destructuring default, and a `null` element
is rendered as `''` by `Array.prototype.join`.  Both paths yield `""`. -/
def jsStrOrEmpty : JsOpt String → String
  | JsOpt.val s => s
  | _ => ""

/-! ## Data model of a job posting (scamDetectionService.js lines 91-111) -/

/-- The `company` sub-object; only `company.name` is read. -/
structure Company where
  name : JsOpt String
deriving DecidableEq

/-- The `contactInfo` sub-object; `email`, `phone` and `website` are read. -/
structure Contact where
  email : JsOpt String
  phone : JsOpt String
  website : JsOpt String
deriving DecidableEq

/-- A job posting as consumed by `analyzeJobPosting`.  The `salary` field of
the source is destructured but never accessed afterwards, so it is omitted;
`jid` stands for the `job._id || job.id` identifier used only by the batch
path. -/
structure JobData where
  jid : Option String
  title : JsOpt String
  description : JsOpt String
  company : JsOpt Company
  requirements : JsOpt (List String)
  responsibilities : JsOpt (List String)
  contactInfo : JsOpt Contact
deriving DecidableEq

/-- Reading `company.name || ''`: throws a `TypeError` when `company` is
`null` (the destructuring default `= {}` applies only to `undefined`). -/
def companyNameOf : JsOpt Company → Except String String
  | JsOpt.null => Except.error "TypeError"
  | JsOpt.undef => Except.ok ""
  | JsOpt.val c => Except.ok (jsStrOrEmpty c.name)

/-- Reading `contactInfo.email/phone/website || ''`: throws a `TypeError`
when `contactInfo` is `null`. -/
def contactPartsOf : JsOpt Contact → Except String (List String)
  | JsOpt.null => Except.error "TypeError"
  | JsOpt.undef => Except.ok ["", "", ""]
  | JsOpt.val c =>
      Except.ok [jsStrOrEmpty c.email, jsStrOrEmpty c.phone, jsStrOrEmpty c.website]

/-- Reading `...(requirements || [])`: default `[]` for `undefined`, and the
`|| []` guard turns `null` into `[]`. -/
def jsListOrEmpty : JsOpt (List String) → List String
  | JsOpt.val l => l
  | _ => []

/-- The field merge of `analyzeJobPosting` (lines 102-111): the `fullText`
string `[title, description, company.name || '', ...requirements,
...responsibilities, email, phone, website].join(' ').toLowerCase()`. -/
def normalizeJob (job : JobData) : Except String String := do
  let cname ← companyNameOf job.company
  let contact ← contactPartsOf job.contactInfo
  Except.ok (jsToLower (jsJoin " "
    ([jsStrOrEmpty job.title, jsStrOrEmpty job.description, cname]
      ++ jsListOrEmpty job.requirements
      ++ jsListOrEmpty job.responsibilities
      ++ contact)))

/-! ## Keyword vocabulary (scamDetectionService.js lines 14-44) -/

/-- The job-posting keyword vocabulary `this.suspiciousKeywords`, in source
order. -/
def suspiciousKeywordsJob : List String :=
  ["money", "payment", "fee", "deposit", "investment", "cash", "wire transfer",
   "paypal", "bitcoin", "cryptocurrency", "bank transfer", "credit card",
   "urgent payment", "immediate payment", "sign up fee", "training fee",
   "work from home", "remote work", "earn money from home", "home based",
   "make money online", "easy money", "quick cash", "no experience needed",
   "work online", "stay at home", "extra income", "side hustle",
   "international", "abroad", "overseas", "travel expenses", "visa processing",
   "flight tickets", "passport", "background check fee", "documentation fee",
   "screening fee", "interview fee", "processing fee", "handling fee",
   "limited time", "act now", "urgent", "immediate", "today only", "last chance",
   "exclusive opportunity", "once in lifetime", "must apply now", "deadline",
   "hurry", "rush", "expedited", "priority", "first come first served",
   "various duties", "miscellaneous tasks", "data entry", "customer service",
   "representative", "coordinator", "assistant", "agent", "associate",
   "clerk", "operator", "specialist", "manager", "director",
   "guaranteed", "risk free", "no risk", "huge profits", "guaranteed income",
   "no loss", "profit guarantee", "money back", "satisfaction guaranteed",
   "free trial", "no commitment", "cancel anytime", "no strings attached"]

/-- The keyword scan shared by both services (scamDetectionService.js lines
123-130 and socialMediaMonitoringService.js lines 163-170): push every
vocabulary entry whose lowercase form occurs in the text, then de-duplicate
with `[...new Set(...)]`. -/
def scanKeywords (vocab : List String) (fullText : String) : List String :=
  dedupKeepFirst (vocab.filter (fun kw => strContains fullText (jsToLower kw)))

/-! ## Sentiment and classifier signals

The `sentiment` npm package and the `natural` Bayes classifier are external
dependencies; their outputs enter the embedding as parameters.  A classifier
outcome of `none` models the caught-error path of lines 216-220 (the
`try/catch` sets `bayesResult = null` when `getClassifications` throws), and
`some l` models a returned classification list `l` of label/probability
pairs. -/

/-- The record returned by `this.sentiment.analyze(fullText)`. -/
structure SentimentR where
  score : ℤ
  comparative : ℚ
  positive : List String
  negative : List String
deriving DecidableEq

/-! ## Red flags and scam types (scamDetectionService.js lines 148-193) -/

/-- The red-flag list built by the five `redFlags.push` sites, in push
order. -/
def jobRedFlags (fk : List String) : List String :=
  (if fk.any (fun kw => (["fee", "payment", "deposit", "investment"]).contains kw)
     then ["payment_required"] else [])
  ++ (if fk.contains "work from home"
        && fk.any (fun kw => (["fee", "payment", "deposit"]).contains kw)
     then ["work_from_home_payment"] else [])
  ++ (if fk.any (fun kw => (["international", "abroad", "overseas", "visa", "flight"]).contains kw)
        && fk.any (fun kw => (["fee", "payment", "deposit"]).contains kw)
     then ["international_fee"] else [])
  ++ (if fk.any (fun kw => (["urgent", "immediate", "act now", "limited time", "hurry"]).contains kw)
     then ["high_pressure"] else [])
  ++ (if fk.any (fun kw => (["various duties", "miscellaneous tasks", "data entry", "customer service"]).contains kw)
        && !(fk.any (fun kw => (["engineer", "developer", "analyst", "manager", "specialist"]).contains kw))
     then ["vague_description"] else [])

/-- The scam-type list built by the three `analysis.scamTypes.push` sites
that accompany the first three red flags. -/
def jobScamTypes (fk : List String) : List String :=
  (if fk.any (fun kw => (["fee", "payment", "deposit", "investment"]).contains kw)
     then ["advance_fee_fraud"] else [])
  ++ (if fk.contains "work from home"
        && fk.any (fun kw => (["fee", "payment", "deposit"]).contains kw)
     then ["work_from_home_scam"] else [])
  ++ (if fk.any (fun kw => (["international", "abroad", "overseas", "visa", "flight"]).contains kw)
        && fk.any (fun kw => (["fee", "payment", "deposit"]).contains kw)
     then ["recruitment_fraud"] else [])

/-! ## Job-posting risk fusion (scamDetectionService.js lines 214-246) -/

/-- Extraction of the scam probability from a classification list (lines
236-237): `find(c => c.label === 'scam')`, then its `value`, or `0` when the
label is absent. -/
def scamProbOf (l : List (String × ℚ)) : ℚ :=
  match l.find? (fun c => c.1 == "scam") with
  | some c => c.2
  | none => 0

/-- The risk-score computation of lines 222-239, as a function of the
flagged-keyword count, the red-flag count, the sentiment comparative, and
the classifier outcome.  The source reads nothing else at this point. -/
def jobRiskScore (k r : ℕ) (comp : ℚ) (bayes : Option (List (String × ℚ))) : ℚ :=
  let keywordRiskScore : ℚ := if k > 0 then min ((k : ℚ) / 10) 1 else 0
  let s1 := keywordRiskScore + (r : ℚ) * (15 / 100)
  let s2 := if comp > 1 / 2 then s1 + 1 / 10 else s1
  match bayes with
  | some l => if l.length > 0 then (s2 + scamProbOf l) / 2 else s2
  | none => s2

/-- The recommendation strings of lines 248-264. -/
def jobRecommendations (isScam : Bool) (fk rf : List String) : List String :=
  (if isScam then
    ["Mark as suspicious and investigate further",
     "Consider removing listing if confidence is high",
     "Notify moderators for review"]
   else
    ["Appears legitimate based on current analysis",
     "Continue monitoring for user reports"])
  ++ (if fk.length > 0 then
        ["Review flagged keywords: " ++ jsJoin ", " (fk.take 5)] else [])
  ++ (if rf.length > 0 then
        ["Red flags detected: " ++ jsJoin ", " rf] else [])

/-- The analysis object returned by `analyzeJobPosting`. -/
structure JobAnalysis where
  isScam : Bool
  confidence : ℚ
  scamTypes : List String
  flaggedKeywords : List String
  flaggedPatterns : List String
  riskFactors : List String
  recommendations : List String
  sentiment : SentimentR
deriving DecidableEq

/-- The body of `analyzeJobPosting` after the field merge (lines 113-266).
`patternMatches` is the concatenation of the raw regex matches produced by
the external regular-expression engine on `fullText` (lines 133-139); the
source de-duplicates it into `analysis.flaggedPatterns`, which feeds nothing
else on the job path.  The TF-IDF scores of lines 206-212 are computed by
the source but never attached to the returned analysis, so they do not
appear in the result; the corresponding state mutation is modelled in
`analyzeJobPostingSt` below. -/
def analyzeJobText (fullText : String) (senti : SentimentR)
    (patternMatches : List String) (bayes : Option (List (String × ℚ))) : JobAnalysis :=
  let fk := scanKeywords suspiciousKeywordsJob fullText
  let rf := jobRedFlags fk
  let risk := min (max (jobRiskScore fk.length rf.length senti.comparative bayes) 0) 1
  { isScam := decide (risk > 1 / 2)
    confidence := risk
    scamTypes := jobScamTypes fk
    flaggedKeywords := fk
    flaggedPatterns := dedupKeepFirst patternMatches
    riskFactors := rf
    recommendations := jobRecommendations (decide (risk > 1 / 2)) fk rf
    sentiment := senti }

/-- Whole-method model of `analyzeJobPosting`: the field merge can throw on
a `null` `company` or `contactInfo`, everything after it is total. -/
def analyzeJobPosting (job : JobData) (senti : SentimentR)
    (patternMatches : List String) (bayes : Option (List (String × ℚ))) :
    Except String JobAnalysis :=
  (normalizeJob job).map (fun t => analyzeJobText t senti patternMatches bayes)

/-! ## Shared TF-IDF state (scamDetectionService.js line 205)

`analyzeJobPosting` executes `this.tfidf.addDocument(fullText)` on the
service-wide `TfIdf` instance: every analysis appends one document to shared
engine state. -/

/-- The accumulated document list of the shared `natural.TfIdf` instance. -/
structure TfIdfSt where
  docs : List String
deriving DecidableEq

/-- `analyzeJobPosting` as a state transformer on the shared TF-IDF
accumulator: on success the normalized text is appended to the document
list; when the field merge throws, the mutation at line 205 is never
reached. -/
def analyzeJobPostingSt (s : TfIdfSt) (job : JobData) (senti : SentimentR)
    (patternMatches : List String) (bayes : Option (List (String × ℚ))) :
    Except String (JobAnalysis × TfIdfSt) :=
  (normalizeJob job).map
    (fun t => (analyzeJobText t senti patternMatches bayes, { docs := s.docs ++ [t] }))

/-! ## Batch analysis (scamDetectionService.js lines 272-296 and the
controller summary of the ml controller lines 95-105) -/

/-- One entry of the batch result: the fields the batch path and the
controller summary read.  A failed analysis is converted to the degraded
object `{ isScam: false, confidence: 0, error: message }` of lines
284-291. -/
structure BatchEntry where
  jobId : Option String
  isScam : Bool
  confidence : ℚ
  error : Option String
deriving DecidableEq

/-- The per-item step of `batchAnalyze`: try the analysis, catch a thrown
error into a degraded entry.  The sentiment, regex and classifier signals of
each item are supplied by the per-job oracle functions. -/
def batchOne (sf : JobData → SentimentR) (pf : JobData → List String)
    (bf : JobData → Option (List (String × ℚ))) (j : JobData) : BatchEntry :=
  match analyzeJobPosting j (sf j) (pf j) (bf j) with
  | Except.ok a => { jobId := j.jid, isScam := a.isScam, confidence := a.confidence, error := none }
  | Except.error e => { jobId := j.jid, isScam := false, confidence := 0, error := some e }

/-- `batchAnalyze`: the sequential loop over the postings, one entry pushed
per posting. -/
def batchAnalyze (jobs : List JobData) (sf : JobData → SentimentR)
    (pf : JobData → List String) (bf : JobData → Option (List (String × ℚ))) :
    List BatchEntry :=
  jobs.map (batchOne sf pf bf)

/-- The controller summary count `results.filter(r => r.analysis.isScam).length`. -/
def scamsDetected (rs : List BatchEntry) : ℕ :=
  (rs.filter (fun r => r.isScam)).length

/-- The controller summary count `results.filter(r => !r.analysis.isScam).length`. -/
def legitimateCount (rs : List BatchEntry) : ℕ :=
  (rs.filter (fun r => !r.isScam)).length

/-! ## Social-media analysis (socialMediaMonitoringService.js lines 136-254) -/

/-- The social-media keyword vocabulary `this.suspiciousKeywords` of the
monitoring service, in source order. -/
def suspiciousKeywordsSocial : List String :=
  ["work from home", "earn money online", "make money from home", "easy money",
   "quick cash", "no experience needed", "urgent hiring", "international job",
   "visa processing", "flight tickets paid", "work abroad", "remote job",
   "investment opportunity", "guaranteed returns", "high profit", "no risk",
   "get rich quick", "money making", "passive income", "side hustle",
   "click here", "limited time", "act now", "urgent", "winner", "congratulations",
   "free money", "prize", "lottery", "inheritance", "claim now",
   "pyramid scheme", "multi-level marketing", "referral program", "affiliate",
   "binary options", "crypto investment", "bitcoin mining", "forex trading"]

/-- The engagement counters read by the analysis (`engagement.followers`
and `engagement.likes`); other counters are not consulted here. -/
structure Engagement where
  followers : JsOpt ℚ
  likes : JsOpt ℚ
deriving DecidableEq

/-- A social post as consumed by `analyzeSocialMediaContent`: `text`
defaults to `''` and `engagement` to `{}` when `undefined`. -/
structure SocialContent where
  text : JsOpt String
  engagement : JsOpt Engagement
deriving DecidableEq

/-- The `followers` field as reached by the guard of line 205: `engagement`
that is `null` is falsy and `undefined` is replaced by `{}`, whose
`followers` is `undefined`. -/
def engFollowers : JsOpt Engagement → JsOpt ℚ
  | JsOpt.val e => e.followers
  | _ => JsOpt.undef

/-- The `likes` field, analogous to `engFollowers`. -/
def engLikes : JsOpt Engagement → JsOpt ℚ
  | JsOpt.val e => e.likes
  | _ => JsOpt.undef

/-- The numeric value of a present field (only consulted under a truthiness
guard in the source). -/
def jsNumOr0 : JsOpt ℚ → ℚ
  | JsOpt.val x => x
  | _ => 0

/-- The engagement term of lines 204-210: the ratio branch runs only when
`engagement && engagement.followers && engagement.likes` is truthy, and adds
`0.2` when `likes / followers > 0.5`. -/
def engagementTerm (eng : JsOpt Engagement) : ℚ :=
  if truthyQ (engFollowers eng) && truthyQ (engLikes eng) then
    (if jsNumOr0 (engLikes eng) / jsNumOr0 (engFollowers eng) > 1 / 2 then 2 / 10 else 0)
  else 0

/-- The risk-score computation of lines 191-218, as a function of the
flagged-keyword count, the flagged-pattern count, the engagement record and
the sentiment comparative; the source reads nothing else there.  The final
`Math.min(riskScore, 1)` cap of line 218 is included. -/
def socialRiskScore (k p : ℕ) (eng : JsOpt Engagement) (comp : ℚ) : ℚ :=
  let s1 : ℚ := if k > 0 then min ((k : ℚ) * (1 / 10)) (5 / 10) else 0
  let s2 : ℚ := s1 + (if p > 0 then min ((p : ℚ) * (15 / 100)) (5 / 10) else 0)
  let s3 : ℚ := s2 + engagementTerm eng
  let s4 : ℚ := s3 + (if comp > 8 / 10 then 15 / 100 else 0)
  min s4 1

/-- The risk-level ladder of lines 222-231. -/
def riskLevelOf (r : ℚ) : String :=
  if r < 3 / 10 then "low"
  else if r < 6 / 10 then "medium"
  else if r < 8 / 10 then "high"
  else "critical"

/-- The scam-type tags of lines 236-252. -/
def socialScamTypes (fk : List String) : List String :=
  (if fk.any (fun kw => (["work from home", "earn money online", "make money from home"]).contains kw)
     then ["work_from_home_scam"] else [])
  ++ (if fk.any (fun kw => (["investment", "guaranteed returns", "high profit", "no risk"]).contains kw)
     then ["investment_fraud"] else [])
  ++ (if fk.any (fun kw => (["pyramid scheme", "multi-level marketing", "referral program"]).contains kw)
     then ["pyramid_scheme"] else [])

/-- The analysis object returned by `analyzeSocialMediaContent`. -/
structure SocialAnalysis where
  isSuspicious : Bool
  confidence : ℚ
  detectedScamTypes : List String
  flaggedKeywords : List String
  flaggedPatterns : List String
  sentiment : SentimentR
  riskLevel : String
deriving DecidableEq

/-- The body of `analyzeSocialMediaContent` after `fullText =
text.toLowerCase()` (lines 145-254).  As on the job path, `patternMatches`
carries the raw matches of the external regex engine. -/
def analyzeSocialText (textRaw : String) (eng : JsOpt Engagement)
    (senti : SentimentR) (patternMatches : List String) : SocialAnalysis :=
  let fullText := jsToLower textRaw
  let fk := scanKeywords suspiciousKeywordsSocial fullText
  let fp := dedupKeepFirst patternMatches
  let risk := socialRiskScore fk.length fp.length eng senti.comparative
  { isSuspicious := decide (risk > 4 / 10)
    confidence := risk
    detectedScamTypes := socialScamTypes fk
    flaggedKeywords := fk
    flaggedPatterns := fp
    sentiment := senti
    riskLevel := riskLevelOf risk }

/-- Whole-method model of `analyzeSocialMediaContent`: a `null` `text` field
survives the destructuring default and `text.toLowerCase()` throws. -/
def analyzeSocialMediaContent (content : SocialContent) (senti : SentimentR)
    (patternMatches : List String) : Except String SocialAnalysis :=
  match content.text with
  | JsOpt.null => Except.error "TypeError"
  | JsOpt.undef => Except.ok (analyzeSocialText "" content.engagement senti patternMatches)
  | JsOpt.val s => Except.ok (analyzeSocialText s content.engagement senti patternMatches)

/-! ## The supervised classifier (C4)

The `natural.BayesClassifier` instance mutated by `updateModel`
(scamDetectionService.js lines 301-311) is an external dependency.
Modelled from the spec: section 4.5's SupervisedClassifier keeps an
append-only corpus of training examples; `train` rebuilds token-frequency
statistics over the corpus and installs them as the active model; `classify`
scores a text against the active model with a naive-Bayes rule and returns
label/probability pairs, or an empty list for an empty model.  A malformed
example (its `text` is `null`/absent) makes `addDocument` throw. -/

/-- A training example `{text, label}`; `text = none` models a malformed
(null) entry. -/
structure TrainEx where
  text : Option String
  label : String
deriving DecidableEq

/-- Classifier state: the accumulated document corpus and the corpus
snapshot the active model was trained from. -/
structure BayesC where
  docs : List (String × String)
  trained : List (String × String)
deriving DecidableEq

/-- Whitespace tokenization used by the modelled classifier. -/
def wordsAux : List Char → List Char → List String
  | [], cur => if cur.isEmpty then [] else [String.mk cur.reverse]
  | c :: rest, cur =>
      if c == Char.ofNat 32 then
        (if cur.isEmpty then wordsAux rest [] else String.mk cur.reverse :: wordsAux rest [])
      else wordsAux rest (c :: cur)

/-- Tokenizes a text into lowercase words. -/
def tokenizeB (s : String) : List String := wordsAux (jsToLower s).data []

/-- Occurrence count of a token in a token list. -/
def countEq (t : String) (l : List String) : ℕ := (l.filter (fun x => x == t)).length

/-- Modelled from the spec: the naive-Bayes scoring rule of
SupervisedClassifier.classify.  For each label of the trained corpus it
multiplies the label prior with Laplace-smoothed token likelihoods; an
untrained (empty) model yields an empty classification list. -/
def classifyB (trained : List (String × String)) (text : String) : List (String × ℚ) :=
  if trained.isEmpty then []
  else
    let toks := tokenizeB text
    let vocabN := (dedupKeepFirst (List.flatten (trained.map (fun d => tokenizeB d.1)))).length
    (dedupKeepFirst (trained.map (fun d => d.2))).map (fun lab =>
      let ldocs := trained.filter (fun d => d.2 == lab)
      let ltoks := List.flatten (ldocs.map (fun d => tokenizeB d.1))
      (lab, ((ldocs.length : ℚ) / (trained.length : ℚ)) *
        (toks.map (fun t => ((countEq t ltoks : ℚ) + 1) / ((ltoks.length : ℚ) + (vocabN : ℚ)))).prod))

/-- Modelled from the spec: `addDocument` appends one example to the corpus;
a malformed example throws before anything is appended. -/
def addDocumentB (b : BayesC) (ex : TrainEx) : Except String BayesC :=
  match ex.text with
  | none => Except.error "TypeError"
  | some t => Except.ok { b with docs := b.docs ++ [(t, ex.label)] }

/-- Modelled from the spec: `train()` installs the statistics of the current
corpus as the active model. -/
def trainB (b : BayesC) : BayesC := { b with trained := b.docs }

/-- The `trainingData.forEach(item => addDocument(item.text, item.label))`
loop of `updateModel` under JavaScript exception semantics: a throw aborts
the loop, but the appends already performed persist on the shared classifier
object. -/
def addAllB : BayesC → List TrainEx → BayesC × Option String
  | b, [] => (b, none)
  | b, ex :: rest =>
      match addDocumentB b ex with
      | Except.ok b2 => addAllB b2 rest
      | Except.error e => (b, some e)

/-- Model of `updateModel` (scamDetectionService.js lines 301-311): append
every example, then retrain; a throw mid-loop leaves the partially extended
corpus behind and never reaches `train()`. -/
def updateModel (b : BayesC) (data : List TrainEx) : BayesC × Option String :=
  match addAllB b data with
  | (b2, none) => (trainB b2, none)
  | (b2, some e) => (b2, some e)

/-- The documents a list of well-formed examples contributes to the corpus. -/
def newDocs (data : List TrainEx) : List (String × String) :=
  data.map (fun e => (e.text.getD "", e.label))

/-- The seed training corpus of `initializeBayesClassifier`
(scamDetectionService.js lines 62-76), already trained at construction. -/
def seedTrainingData : List (String × String) :=
  [("Work from home making $5000 per week! No experience needed. Sign up fee required.", "scam"),
   ("Earn money online! Send $200 to get started. Easy payments. Urgent!", "scam"),
   ("International company hiring! Pay processing fee of $150 for visa. Act now!", "scam"),
   ("Make money from home! No skills required! Wire transfer payment only!", "scam"),
   ("Earn big money fast! Investment required. Risk free guarantee!", "scam"),
   ("Software Engineer position. 3+ years experience required. Competitive salary.", "legitimate"),
   ("Marketing coordinator needed. Bachelor's degree required. Benefits included.", "legitimate"),
   ("Join our team of professionals. Great work environment. Apply today.", "legitimate"),
   ("Senior developer role. Experience with React and Node.js. Remote work available.", "legitimate"),
   ("Customer service representative. Excellent communication skills needed. Full-time.", "legitimate")]

/-- The classifier as initialized by the service constructor. -/
def seedB : BayesC := { docs := seedTrainingData, trained := seedTrainingData }

/-! ## Specification-side fusion formulas

These two definitions follow the words of the specification (and of claims
C1 and C2), to be compared with the source-derived `jobRiskScore` and
`socialRiskScore`. -/

/-- Spec-side job fusion, following claim C1: `min(|flaggedKeywords|/10, 1)
+ 0.15 × redFlags`, plus `0.1` when the comparative exceeds `0.5`, averaged
with the scam probability when the classification list is non-empty. -/
def specJobRiskScore (k r : ℕ) (comp : ℚ) (bayes : Option (List (String × ℚ))) : ℚ :=
  let base := min ((k : ℚ) / 10) 1 + (15 / 100) * (r : ℚ)
    + (if comp > 1 / 2 then 1 / 10 else 0)
  match bayes with
  | some l => if l ≠ [] then (base + scamProbOf l) / 2 else base
  | none => base

/-- Presence (not truthiness) of a numeric field. -/
def isValQ : JsOpt ℚ → Bool
  | JsOpt.val _ => true
  | _ => false

/-- Spec-side engagement bonus, following claim C2: `0.2` when the
engagement metrics include both `followers` and `likes` and
`likes / followers > 0.5` (rational division, so a zero denominator yields
ratio `0`). -/
def specEngagementTerm (eng : JsOpt Engagement) : ℚ :=
  if isValQ (engFollowers eng) && isValQ (engLikes eng)
      && decide (jsNumOr0 (engLikes eng) / jsNumOr0 (engFollowers eng) > 1 / 2)
  then 2 / 10 else 0

/-- Spec-side social fusion, following claim C2:
`min(|flaggedKeywords| × 0.1, 0.5) + min(|flaggedPatterns| × 0.15, 0.5)`
plus the engagement bonus plus `0.15` when the comparative exceeds `0.8`. -/
def specSocialRiskScore (k p : ℕ) (eng : JsOpt Engagement) (comp : ℚ) : ℚ :=
  min ((k : ℚ) * (1 / 10)) (5 / 10) + min ((p : ℚ) * (15 / 100)) (5 / 10)
  + specEngagementTerm eng + (if comp > 8 / 10 then 15 / 100 else 0)

/-! ## Helper lemmas about de-duplication -/

theorem mem_dedupAux (l : List String) :
    ∀ (seen : List String) (a : String), a ∈ dedupAux seen l ↔ a ∈ l ∧ a ∉ seen := by
  induction l with
  | nil => intro seen a; simp [dedupAux]
  | cons x xs ih =>
    intro seen a
    by_cases hx : x ∈ seen
    · rw [show dedupAux seen (x :: xs) = dedupAux seen xs by simp [dedupAux, hx], ih]
      constructor
      · rintro ⟨ha, hs⟩; exact ⟨List.mem_cons_of_mem _ ha, hs⟩
      · rintro ⟨ha, hs⟩
        rcases List.mem_cons.mp ha with rfl | ha
        · exact absurd hx hs
        · exact ⟨ha, hs⟩
    · rw [show dedupAux seen (x :: xs) = x :: dedupAux (x :: seen) xs by
        simp [dedupAux, hx]]
      simp only [List.mem_cons, ih]
      constructor
      · rintro (rfl | ⟨ha, hs⟩)
        · exact ⟨Or.inl rfl, hx⟩
        · exact ⟨Or.inr ha, fun hc => hs (Or.inr hc)⟩
      · rintro ⟨rfl | ha, hs⟩
        · exact Or.inl rfl
        · by_cases hax : a = x
          · exact Or.inl hax
          · exact Or.inr ⟨ha, by simp [hax, hs]⟩

theorem nodup_dedupAux (l : List String) :
    ∀ seen : List String, (dedupAux seen l).Nodup := by
  induction l with
  | nil => intro seen; simp [dedupAux]
  | cons x xs ih =>
    intro seen
    by_cases hx : x ∈ seen
    · rw [show dedupAux seen (x :: xs) = dedupAux seen xs by simp [dedupAux, hx]]
      exact ih seen
    · rw [show dedupAux seen (x :: xs) = x :: dedupAux (x :: seen) xs by
        simp [dedupAux, hx]]
      refine List.nodup_cons.mpr ⟨?_, ih (x :: seen)⟩
      intro hmem
      exact ((mem_dedupAux xs (x :: seen) x).mp hmem).2 (List.mem_cons_self x seen)

theorem sublist_dedupAux (l : List String) :
    ∀ seen : List String, (dedupAux seen l).Sublist l := by
  induction l with
  | nil => intro seen; simp [dedupAux]
  | cons x xs ih =>
    intro seen
    by_cases hx : x ∈ seen
    · rw [show dedupAux seen (x :: xs) = dedupAux seen xs by simp [dedupAux, hx]]
      exact (ih seen).trans (List.sublist_cons_self x xs)
    · rw [show dedupAux seen (x :: xs) = x :: dedupAux (x :: seen) xs by
        simp [dedupAux, hx]]
      exact List.Sublist.cons₂ x (ih (x :: seen))

theorem dedupAux_eq_self (l : List String) :
    ∀ seen : List String, l.Nodup → (∀ a ∈ l, a ∉ seen) → dedupAux seen l = l := by
  induction l with
  | nil => intro seen _ _; rfl
  | cons x xs ih =>
    intro seen hnd hdisj
    have hx : x ∉ seen := hdisj x (List.mem_cons_self x xs)
    rw [show dedupAux seen (x :: xs) = x :: dedupAux (x :: seen) xs by
      simp [dedupAux, hx]]
    refine congrArg (fun t => x :: t) ?_
    refine ih (x :: seen) (List.Nodup.of_cons hnd) ?_
    intro a ha hc
    rcases List.mem_cons.mp hc with rfl | hc2
    · exact (List.nodup_cons.mp hnd).1 ha
    · exact hdisj a (List.mem_cons_of_mem _ ha) hc2

/-! ## Fusion-equality lemmas -/

theorem jobRiskScore_eq_spec (k r : ℕ) (comp : ℚ) (bayes : Option (List (String × ℚ))) :
    jobRiskScore k r comp bayes = specJobRiskScore k r comp bayes := by
  have hbody : (if comp > 1 / 2
        then (if k > 0 then min ((k : ℚ) / 10) 1 else 0) + (r : ℚ) * (15 / 100) + 1 / 10
        else (if k > 0 then min ((k : ℚ) / 10) 1 else 0) + (r : ℚ) * (15 / 100))
      = min ((k : ℚ) / 10) 1 + (15 / 100) * (r : ℚ)
        + (if comp > 1 / 2 then (1 : ℚ) / 10 else 0) := by
    have hk : (if k > 0 then min ((k : ℚ) / 10) 1 else 0) = min ((k : ℚ) / 10) 1 := by
      rcases Nat.eq_zero_or_pos k with h | h
      · subst h; norm_num
      · rw [if_pos h]
    by_cases hc : comp > 1 / 2
    · rw [if_pos hc, if_pos hc, hk, mul_comm]
    · rw [if_neg hc, if_neg hc, hk, mul_comm, add_zero]
  rcases bayes with _ | l
  · simpa only [jobRiskScore, specJobRiskScore] using hbody
  · rcases l with _ | ⟨c, cs⟩
    · simp only [jobRiskScore, specJobRiskScore, List.length_nil, gt_iff_lt,
        Nat.lt_irrefl, if_false, ne_eq, not_true_eq_false]
      simpa using hbody
    · simp only [jobRiskScore, specJobRiskScore, List.length_cons, gt_iff_lt,
        Nat.succ_pos, if_true, ne_eq, reduceCtorEq, not_false_eq_true]
      rw [hbody]

theorem engagementTerm_eq_spec (eng : JsOpt Engagement) :
    engagementTerm eng = specEngagementTerm eng := by
  rcases eng with _ | _ | e
  · rfl
  · rfl
  · rcases hf : e.followers with _ | _ | f
    · simp [engagementTerm, specEngagementTerm, engFollowers, engLikes, truthyQ, isValQ, hf]
    · simp [engagementTerm, specEngagementTerm, engFollowers, engLikes, truthyQ, isValQ, hf]
    · rcases hl : e.likes with _ | _ | l
      · simp [engagementTerm, specEngagementTerm, engFollowers, engLikes, truthyQ, isValQ, hf, hl]
      · simp [engagementTerm, specEngagementTerm, engFollowers, engLikes, truthyQ, isValQ, hf, hl]
      · by_cases hf0 : f = 0
        · subst hf0
          simp [engagementTerm, specEngagementTerm, engFollowers, engLikes, truthyQ, isValQ,
            hf, hl, jsNumOr0, div_zero]
          norm_num
        · by_cases hl0 : l = 0
          · subst hl0
            simp [engagementTerm, specEngagementTerm, engFollowers, engLikes, truthyQ, isValQ,
              hf, hl, jsNumOr0, zero_div, hf0]
            norm_num
          · simp [engagementTerm, specEngagementTerm, engFollowers, engLikes, truthyQ, isValQ,
              hf, hl, jsNumOr0, hf0, hl0]

theorem specEngagementTerm_nonneg (eng : JsOpt Engagement) : 0 ≤ specEngagementTerm eng := by
  unfold specEngagementTerm
  split <;> norm_num

theorem specSocialRiskScore_nonneg (k p : ℕ) (eng : JsOpt Engagement) (comp : ℚ) :
    0 ≤ specSocialRiskScore k p eng comp := by
  unfold specSocialRiskScore
  have h1 : (0 : ℚ) ≤ min ((k : ℚ) * (1 / 10)) (5 / 10) := by positivity
  have h2 : (0 : ℚ) ≤ min ((p : ℚ) * (15 / 100)) (5 / 10) := by positivity
  have h3 := specEngagementTerm_nonneg eng
  have h4 : (0 : ℚ) ≤ (if comp > 8 / 10 then (15 : ℚ) / 100 else 0) := by
    split <;> norm_num
  linarith

theorem socialRiskScore_eq_spec (k p : ℕ) (eng : JsOpt Engagement) (comp : ℚ) :
    socialRiskScore k p eng comp = min (specSocialRiskScore k p eng comp) 1 := by
  unfold socialRiskScore specSocialRiskScore
  have hk : (if k > 0 then min ((k : ℚ) * (1 / 10)) (5 / 10) else 0)
      = min ((k : ℚ) * (1 / 10)) (5 / 10) := by
    rcases Nat.eq_zero_or_pos k with h | h
    · subst h; norm_num
    · simp [h]
  have hp : (if p > 0 then min ((p : ℚ) * (15 / 100)) (5 / 10) else 0)
      = min ((p : ℚ) * (15 / 100)) (5 / 10) := by
    rcases Nat.eq_zero_or_pos p with h | h
    · subst h; norm_num
    · simp [h]
  simp only [hk, hp, engagementTerm_eq_spec]

/-! ## Claim theorems -/

/-- C1: for every job-posting content unit, the job fusion computes
`riskScore = min(|flaggedKeywords|/10, 1) + 0.15 × redFlags`, adds `0.1`
when the sentiment comparative exceeds `0.5`, averages with the scam
probability whenever the classifier returns a non-empty classification
list, clamps to `[0, 1]` as the final confidence, and sets
`isScam = confidence > 0.5`. -/
theorem C1_job_fusion_formula (fullText : String) (senti : SentimentR)
    (pm : List String) (bayes : Option (List (String × ℚ))) :
    (analyzeJobText fullText senti pm bayes).confidence
      = min (max (specJobRiskScore
            (analyzeJobText fullText senti pm bayes).flaggedKeywords.length
            (analyzeJobText fullText senti pm bayes).riskFactors.length
            senti.comparative bayes) 0) 1
    ∧ (analyzeJobText fullText senti pm bayes).isScam
      = decide ((analyzeJobText fullText senti pm bayes).confidence > 1 / 2) := by
  constructor
  · simp only [analyzeJobText, jobRiskScore_eq_spec]
  · rfl

/-- C2: for every social post, the confidence equals
`min(|flaggedKeywords| × 0.1, 0.5) + min(|flaggedPatterns| × 0.15, 0.5)`
plus `0.2` for a high engagement ratio and `0.15` for a comparative above
`0.8`, clamped to `[0, 1]`, and `isSuspicious = confidence > 0.4`. -/
theorem C2_social_fusion_formula (textRaw : String) (eng : JsOpt Engagement)
    (senti : SentimentR) (pm : List String) :
    (analyzeSocialText textRaw eng senti pm).confidence
      = min (specSocialRiskScore
            (analyzeSocialText textRaw eng senti pm).flaggedKeywords.length
            (analyzeSocialText textRaw eng senti pm).flaggedPatterns.length
            eng senti.comparative) 1
    ∧ 0 ≤ (analyzeSocialText textRaw eng senti pm).confidence
    ∧ (analyzeSocialText textRaw eng senti pm).confidence ≤ 1
    ∧ (analyzeSocialText textRaw eng senti pm).isSuspicious
      = decide ((analyzeSocialText textRaw eng senti pm).confidence > 4 / 10) := by
  simp only [analyzeSocialText]
  refine ⟨socialRiskScore_eq_spec _ _ _ _, ?_, ?_, trivial⟩
  · rw [socialRiskScore_eq_spec]
    exact le_min (specSocialRiskScore_nonneg _ _ _ _) zero_le_one
  · rw [socialRiskScore_eq_spec]
    exact min_le_right _ _

/-- C3: the risk level derived from a social-post confidence is "low" below
`0.3`, "medium" on `[0.3, 0.6)`, "high" on `[0.6, 0.8)` and "critical" from
`0.8` on; in particular the boundary confidences `0.3`, `0.6` and `0.8` map
to "medium", "high" and "critical", and the analysis result's riskLevel is
exactly this function of its confidence. -/
theorem C3_risk_level_thresholds :
    (∀ c : ℚ, (riskLevelOf c = "low" ↔ c < 3 / 10)
      ∧ (riskLevelOf c = "medium" ↔ 3 / 10 ≤ c ∧ c < 6 / 10)
      ∧ (riskLevelOf c = "high" ↔ 6 / 10 ≤ c ∧ c < 8 / 10)
      ∧ (riskLevelOf c = "critical" ↔ 8 / 10 ≤ c))
    ∧ riskLevelOf (3 / 10) = "medium"
    ∧ riskLevelOf (6 / 10) = "high"
    ∧ riskLevelOf (8 / 10) = "critical"
    ∧ ∀ (textRaw : String) (eng : JsOpt Engagement) (senti : SentimentR) (pm : List String),
        (analyzeSocialText textRaw eng senti pm).riskLevel
          = riskLevelOf (analyzeSocialText textRaw eng senti pm).confidence := by
  refine ⟨?_, by unfold riskLevelOf; norm_num, by unfold riskLevelOf; norm_num,
    by unfold riskLevelOf; norm_num, fun textRaw eng senti pm => rfl⟩
  intro c
  unfold riskLevelOf
  refine ⟨?_, ?_, ?_, ?_⟩ <;> split_ifs with h1 h2 h3 <;> simp_all <;> try (intros; linarith)

/-- C6: a classifier failure (the caught-throw path, modelled by `none`) or
malformed empty output (`some []`) is treated as absence of the classifier
signal: the averaging step is skipped and the fusion is the rule-based
formula alone, and whether the analysis returns a result does not depend on
the classifier outcome at all. -/
theorem C6_classifier_fallback (fullText : String) (senti : SentimentR) (pm : List String) :
    analyzeJobText fullText senti pm none = analyzeJobText fullText senti pm (some [])
    ∧ (analyzeJobText fullText senti pm none).confidence
        = min (max (specJobRiskScore
              (analyzeJobText fullText senti pm none).flaggedKeywords.length
              (analyzeJobText fullText senti pm none).riskFactors.length
              senti.comparative none) 0) 1
    ∧ ∀ (job : JobData) (bayes : Option (List (String × ℚ))),
        (analyzeJobPosting job senti pm bayes).toOption.isSome
          = (analyzeJobPosting job senti pm none).toOption.isSome := by
  refine ⟨?_, ?_, ?_⟩
  · have hrs : ∀ k r c, jobRiskScore k r c (some []) = jobRiskScore k r c none := by
      intro k r c
      simp [jobRiskScore]
    simp only [analyzeJobText, hrs]
  · simp only [analyzeJobText, jobRiskScore_eq_spec]
  · intro job bayes
    unfold analyzeJobPosting
    rcases normalizeJob job with e | t <;> rfl

/-- C9: the keyword scan returns the set of vocabulary entries occurring as
substrings of the text: without duplicates, ordered as a sublist of the
vocabulary (first-occurrence-in-vocabulary order, not text order), with
membership exactly characterized by case-insensitive substring occurrence,
and already de-duplicated (re-de-duplication is the identity, so repeated
calls return the same stable list). -/
theorem C9_lexicon_matcher (vocab : List String) (t : String) :
    (scanKeywords vocab t).Nodup
    ∧ (scanKeywords vocab t).Sublist vocab
    ∧ (∀ kw, kw ∈ scanKeywords vocab t ↔ kw ∈ vocab ∧ strContains t (jsToLower kw) = true)
    ∧ dedupKeepFirst (scanKeywords vocab t) = scanKeywords vocab t := by
  refine ⟨nodup_dedupAux _ _, (sublist_dedupAux _ _).trans (List.filter_sublist _), ?_, ?_⟩
  · intro kw
    unfold scanKeywords dedupKeepFirst
    rw [mem_dedupAux]
    simp [List.mem_filter]
  · exact dedupAux_eq_self _ _ (nodup_dedupAux _ _) (fun a _ => List.not_mem_nil a)

/-- C10: when the engagement metadata lacks a truthy followers count or a
truthy likes count (absent, null, or zero), the engagement branch is skipped
entirely: the analysis equals the analysis with no engagement metadata at
all, so no ratio is formed and no `0.2` bonus is added. -/
theorem C10_engagement_guard (textRaw : String) (eng : JsOpt Engagement)
    (senti : SentimentR) (pm : List String)
    (h : truthyQ (engFollowers eng) = false ∨ truthyQ (engLikes eng) = false) :
    analyzeSocialText textRaw eng senti pm = analyzeSocialText textRaw JsOpt.undef senti pm := by
  have he : engagementTerm eng = 0 := by
    unfold engagementTerm
    rcases h with h | h <;> rw [h] <;> simp
  have hrisk : ∀ (k p : ℕ) (comp : ℚ),
      socialRiskScore k p eng comp = socialRiskScore k p JsOpt.undef comp := by
    intro k p comp
    unfold socialRiskScore
    rw [he, show engagementTerm JsOpt.undef = 0 from rfl]
  simp only [analyzeSocialText, hrisk]

/-- Demonstration engagement record with a present but zero followers
count. -/
def demoEng : JsOpt Engagement := JsOpt.val { followers := JsOpt.val 0, likes := JsOpt.val 7 }

/-- Neutral sentiment record used by the demonstrations. -/
def demoSenti : SentimentR := { score := 0, comparative := 0, positive := [], negative := [] }

/-- Witness for C10: a post whose engagement has `followers = 0` analyzes
exactly as a post with no engagement metadata. -/
theorem C10_engagement_guard_witness :
    (truthyQ (engFollowers demoEng) = false ∨ truthyQ (engLikes demoEng) = false)
    ∧ analyzeSocialText "hi" demoEng demoSenti []
        = analyzeSocialText "hi" JsOpt.undef demoSenti [] :=
  ⟨Or.inl (by decide), C10_engagement_guard "hi" demoEng demoSenti [] (Or.inl (by decide))⟩

/-! ## Demonstration inputs -/

/-- A job posting with only a title. -/
def demoJob : JobData :=
  { jid := none, title := JsOpt.val "Hello", description := JsOpt.undef,
    company := JsOpt.undef, requirements := JsOpt.undef,
    responsibilities := JsOpt.undef, contactInfo := JsOpt.undef }

/-- A job posting with every field absent. -/
def emptyJob : JobData :=
  { jid := none, title := JsOpt.undef, description := JsOpt.undef, company := JsOpt.undef,
    requirements := JsOpt.undef, responsibilities := JsOpt.undef, contactInfo := JsOpt.undef }

/-- A job posting whose `company` field is explicitly `null`. -/
def jobNullCompany : JobData := { emptyJob with company := JsOpt.null }

/-- A job posting whose `contactInfo` field is explicitly `null`. -/
def jobNullContact : JobData := { emptyJob with contactInfo := JsOpt.null }

/-- A job posting with `null` in every scalar position that the field merge
tolerates. -/
def jobAllNullScalars : JobData :=
  { jid := none, title := JsOpt.null, description := JsOpt.null,
    company := JsOpt.val { name := JsOpt.null }, requirements := JsOpt.null,
    responsibilities := JsOpt.null,
    contactInfo := JsOpt.val { email := JsOpt.null, phone := JsOpt.null, website := JsOpt.null } }

/-- The batch of claim C5's example: five postings, the third of which
throws during analysis (its `company` is `null`). -/
def demoJobs5 : List JobData := [emptyJob, emptyJob, jobNullCompany, emptyJob, emptyJob]

/-- Neutral per-job sentiment oracle. -/
def demoSentiF : JobData → SentimentR := fun _ => demoSenti

/-- Per-job regex oracle returning no matches. -/
def demoPmF : JobData → List String := fun _ => []

/-- Per-job classifier oracle modelling a caught classifier failure. -/
def demoBayesF : JobData → Option (List (String × ℚ)) := fun _ => none

/-- Default entry used with `List.getD`. -/
def defaultEntry : BatchEntry := { jobId := none, isScam := false, confidence := 0, error := none }

/-! ## Evaluation lemmas for the demonstration batch -/

theorem normalizeJob_empty : normalizeJob emptyJob = Except.ok "     " := rfl

theorem scanKeywords_spaces : scanKeywords suspiciousKeywordsJob "     " = [] := by decide

theorem analyzeJobText_spaces :
    analyzeJobText "     " demoSenti [] none
      = { isScam := false, confidence := 0, scamTypes := [], flaggedKeywords := [],
          flaggedPatterns := [], riskFactors := [],
          recommendations := ["Appears legitimate based on current analysis",
            "Continue monitoring for user reports"],
          sentiment := demoSenti } := by
  have hrisk : jobRiskScore 0 0 demoSenti.comparative none = 0 := by
    norm_num [jobRiskScore, demoSenti]
  have hclamp : min (max (jobRiskScore 0 0 demoSenti.comparative none) 0) 1 = 0 := by
    rw [hrisk]; norm_num
  have hscam : decide (min (max (jobRiskScore 0 0 demoSenti.comparative none) 0) 1 > 1 / 2)
      = false := by
    rw [hclamp]
    exact decide_eq_false (by norm_num)
  simp only [analyzeJobText, scanKeywords_spaces, List.length_nil]
  rw [show jobRedFlags [] = [] from rfl, show jobScamTypes [] = [] from rfl]
  simp only [List.length_nil, hclamp, hscam]
  rw [show decide ((0 : ℚ) > 1 / 2) = false from decide_eq_false (by norm_num)]
  rfl

theorem batchOne_empty :
    batchOne demoSentiF demoPmF demoBayesF emptyJob
      = { jobId := none, isScam := false, confidence := 0, error := none } := by
  unfold batchOne analyzeJobPosting demoSentiF demoPmF demoBayesF
  rw [normalizeJob_empty]
  simp only [Except.map, analyzeJobText_spaces]
  rfl

theorem batchOne_nullCompany :
    batchOne demoSentiF demoPmF demoBayesF jobNullCompany
      = { jobId := none, isScam := false, confidence := 0, error := some "TypeError" } := rfl

theorem batch_demo_eval :
    batchAnalyze demoJobs5 demoSentiF demoPmF demoBayesF
      = [{ jobId := none, isScam := false, confidence := 0, error := none },
         { jobId := none, isScam := false, confidence := 0, error := none },
         { jobId := none, isScam := false, confidence := 0, error := some "TypeError" },
         { jobId := none, isScam := false, confidence := 0, error := none },
         { jobId := none, isScam := false, confidence := 0, error := none }] := by
  unfold batchAnalyze demoJobs5
  rw [List.map_cons, List.map_cons, List.map_cons, List.map_cons, List.map_cons, List.map_nil,
    batchOne_empty, batchOne_nullCompany]

/-- Partition of the controller summary counts. -/
theorem counts_partition (rs : List BatchEntry) :
    scamsDetected rs + legitimateCount rs = rs.length := by
  unfold scamsDetected legitimateCount
  induction rs with
  | nil => rfl
  | cons r rest ih =>
    by_cases h : r.isScam = true <;> simp [List.filter, h] <;> omega

/-- C5 counterexample: on the five-posting batch whose third item throws,
the batch returns five entries with the third degraded, but the controller
summary counts the degraded entry among the "legitimate" results
(`legitimate = 5`, not the `4` successfully analyzed non-scam items), so
degraded items are not excluded from the aggregate counts. -/
theorem C5_counterexample :
    (batchAnalyze demoJobs5 demoSentiF demoPmF demoBayesF).length = 5
    ∧ ((batchAnalyze demoJobs5 demoSentiF demoPmF demoBayesF).getD 2 defaultEntry).error
        = some "TypeError"
    ∧ ((batchAnalyze demoJobs5 demoSentiF demoPmF demoBayesF).getD 2 defaultEntry).confidence = 0
    ∧ legitimateCount (batchAnalyze demoJobs5 demoSentiF demoPmF demoBayesF) = 5
    ∧ ((batchAnalyze demoJobs5 demoSentiF demoPmF demoBayesF).filter
          (fun r => r.error.isNone && !r.isScam)).length = 4
    ∧ legitimateCount (batchAnalyze demoJobs5 demoSentiF demoPmF demoBayesF)
        ≠ ((batchAnalyze demoJobs5 demoSentiF demoPmF demoBayesF).filter
          (fun r => r.error.isNone && !r.isScam)).length := by
  rw [batch_demo_eval]
  exact ⟨rfl, rfl, rfl, rfl, rfl, by decide⟩

/-- C5 (amended): `batchAnalyze` returns one entry per posting, in input
order, each depending only on its own posting; a posting whose analysis
throws yields the degraded entry with `confidence = 0` and the error note,
a posting whose analysis succeeds yields that analysis's verdict; and the
summary counts always satisfy `scamsDetected + legitimate = N`, the
degraded entries being counted as legitimate rather than excluded. -/
theorem C5_batch_isolation (jobs : List JobData) (sf : JobData → SentimentR)
    (pf : JobData → List String) (bf : JobData → Option (List (String × ℚ))) :
    (batchAnalyze jobs sf pf bf).length = jobs.length
    ∧ (∀ i : ℕ, (batchAnalyze jobs sf pf bf)[i]? = (jobs[i]?).map (batchOne sf pf bf))
    ∧ scamsDetected (batchAnalyze jobs sf pf bf)
        + legitimateCount (batchAnalyze jobs sf pf bf) = jobs.length
    ∧ (∀ (j : JobData) (e : String),
        analyzeJobPosting j (sf j) (pf j) (bf j) = Except.error e →
        batchOne sf pf bf j
          = { jobId := j.jid, isScam := false, confidence := 0, error := some e })
    ∧ (∀ (j : JobData) (a : JobAnalysis),
        analyzeJobPosting j (sf j) (pf j) (bf j) = Except.ok a →
        batchOne sf pf bf j
          = { jobId := j.jid, isScam := a.isScam, confidence := a.confidence, error := none }) := by
  refine ⟨?_, ?_, ?_, ?_, ?_⟩
  · exact List.length_map _ _
  · intro i
    unfold batchAnalyze
    exact List.getElem?_map _ _ _
  · rw [counts_partition]
    exact List.length_map _ _
  · intro j e h
    unfold batchOne
    rw [h]
  · intro j a h
    unfold batchOne
    rw [h]

/-- Witness for C5: the third demonstration posting throws a TypeError and
is converted to the degraded entry; the first posting succeeds and keeps its
analysis verdict. -/
theorem C5_batch_isolation_witness :
    analyzeJobPosting jobNullCompany (demoSentiF jobNullCompany) (demoPmF jobNullCompany)
        (demoBayesF jobNullCompany) = Except.error "TypeError"
    ∧ batchOne demoSentiF demoPmF demoBayesF jobNullCompany
        = { jobId := jobNullCompany.jid, isScam := false, confidence := 0,
            error := some "TypeError" }
    ∧ analyzeJobPosting emptyJob (demoSentiF emptyJob) (demoPmF emptyJob)
        (demoBayesF emptyJob)
        = Except.ok (analyzeJobText "     " demoSenti [] none)
    ∧ batchOne demoSentiF demoPmF demoBayesF emptyJob
        = { jobId := emptyJob.jid,
            isScam := (analyzeJobText "     " demoSenti [] none).isScam,
            confidence := (analyzeJobText "     " demoSenti [] none).confidence,
            error := none } := by
  refine ⟨rfl, ?_, rfl, ?_⟩
  · exact (C5_batch_isolation demoJobs5 demoSentiF demoPmF demoBayesF).2.2.2.1
      jobNullCompany "TypeError" rfl
  · exact (C5_batch_isolation demoJobs5 demoSentiF demoPmF demoBayesF).2.2.2.2
      emptyJob (analyzeJobText "     " demoSenti [] none) rfl

/-- C7 counterexample: analyzing one job posting from the empty TF-IDF
state succeeds and leaves the engine state changed — the normalized
document has been appended to the shared accumulator — refuting the claim
that per-item analysis never writes shared engine state. -/
theorem C7_counterexample :
    ((analyzeJobPostingSt { docs := [] } demoJob demoSenti [] none).toOption.map
        Prod.snd).isSome = true
    ∧ ((analyzeJobPostingSt { docs := [] } demoJob demoSenti [] none).toOption.map
        Prod.snd) ≠ some { docs := [] } := by
  constructor
  · rfl
  · decide

/-- C7 (amended): the analysis result is a pure function of the content
unit and the supplied signals — it does not depend on the shared TF-IDF
state, so repeated analysis of the same unit yields equal results — but
each successful analysis appends the normalized document to the shared
TF-IDF accumulator, growing it by exactly one document. -/
theorem C7_analysis_state (s1 s2 : TfIdfSt) (job : JobData) (senti : SentimentR)
    (pm : List String) (bayes : Option (List (String × ℚ))) :
    (analyzeJobPostingSt s1 job senti pm bayes).map Prod.fst
      = (analyzeJobPostingSt s2 job senti pm bayes).map Prod.fst
    ∧ (analyzeJobPostingSt s1 job senti pm bayes).map (fun r => r.2.docs.length)
      = (normalizeJob job).map (fun _ => s1.docs.length + 1) := by
  unfold analyzeJobPostingSt
  rcases normalizeJob job with e | t
  · exact ⟨rfl, rfl⟩
  · exact ⟨rfl, by simp [Except.map]⟩

/-- C8: the claim says the field merge never errors for any combination of
null or missing fields.  The embedding shows it does produce the lowercase
single-space join, treating absent fields and null scalar fields as empty
strings, but it throws a TypeError when the `company` or `contactInfo`
object itself is `null`, because the destructuring defaults `= {}` apply
only to `undefined`. -/
theorem C8_normalization_nulls :
    normalizeJob jobNullCompany = Except.error "TypeError"
    ∧ normalizeJob jobNullContact = Except.error "TypeError"
    ∧ normalizeJob emptyJob = Except.ok "     "
    ∧ normalizeJob jobAllNullScalars = Except.ok "     " :=
  ⟨rfl, rfl, rfl, rfl⟩

/-! ## Classifier retrain lemmas -/

theorem addAllB_wellformed (data : List TrainEx) :
    ∀ b : BayesC, (∀ ex ∈ data, ex.text ≠ none) →
      addAllB b data = ({ b with docs := b.docs ++ newDocs data }, none) := by
  induction data with
  | nil => intro b _; simp [addAllB, newDocs]
  | cons ex rest ih =>
    intro b hwf
    rcases hx : ex.text with _ | t
    · exact absurd hx (hwf ex (List.mem_cons_self _ _))
    · simp only [addAllB, addDocumentB, hx]
      rw [ih _ (fun e he => hwf e (List.mem_cons_of_mem _ he))]
      simp [newDocs, hx]

theorem addAllB_fails (pre : List TrainEx) :
    ∀ (b : BayesC) (bad : TrainEx) (rest : List TrainEx),
      (∀ ex ∈ pre, ex.text ≠ none) → bad.text = none →
      addAllB b (pre ++ bad :: rest)
        = ({ b with docs := b.docs ++ newDocs pre }, some "TypeError") := by
  induction pre with
  | nil =>
    intro b bad rest _ hbad
    simp [addAllB, addDocumentB, hbad, newDocs]
  | cons ex pre2 ih =>
    intro b bad rest hwf hbad
    rcases hx : ex.text with _ | t
    · exact absurd hx (hwf ex (List.mem_cons_self _ _))
    · simp only [List.cons_append, List.append_eq, addAllB, addDocumentB, hx]
      rw [ih _ bad rest (fun e he => hwf e (List.mem_cons_of_mem _ he)) hbad]
      simp [newDocs, hx]

/-- C4 counterexample: retraining the seeded classifier on a two-example
list whose second example is malformed fails — and leaves the classifier
state different from the state before the attempt (the first example has
already been appended to the corpus), refuting the all-or-nothing abort of
the claim. -/
theorem C4_counterexample :
    (updateModel seedB [{ text := some "easy money wire transfer", label := "scam" },
        { text := none, label := "scam" }]).2.isSome = true
    ∧ (updateModel seedB [{ text := some "easy money wire transfer", label := "scam" },
        { text := none, label := "scam" }]).1 ≠ seedB := by
  constructor
  · rfl
  · decide

/-- C4 (amended): on a list of well-formed examples, `updateModel` is
exactly train-on-corpus-plus-new-examples; on a list with a malformed
example, the update throws, the active trained model — and hence the
classification of any probe text — is unchanged, but the well-formed
examples preceding the malformed one remain appended to the corpus, so the
abort is not all-or-nothing with respect to the corpus. -/
theorem C4_retrain_midway (b : BayesC) (data : List TrainEx) (probe : String) :
    ((∀ ex ∈ data, ex.text ≠ none) →
      updateModel b data = (trainB { b with docs := b.docs ++ newDocs data }, none))
    ∧ (∀ (pre : List TrainEx) (bad : TrainEx) (rest : List TrainEx),
        data = pre ++ bad :: rest → bad.text = none → (∀ ex ∈ pre, ex.text ≠ none) →
        (updateModel b data).2 = some "TypeError"
        ∧ (updateModel b data).1.docs = b.docs ++ newDocs pre
        ∧ (updateModel b data).1.trained = b.trained
        ∧ classifyB (updateModel b data).1.trained probe = classifyB b.trained probe) := by
  constructor
  · intro hwf
    unfold updateModel
    rw [addAllB_wellformed data b hwf]
  · intro pre bad rest hdata hbad hwf
    subst hdata
    unfold updateModel
    rw [addAllB_fails pre b bad rest hwf hbad]
    exact ⟨rfl, rfl, rfl, rfl⟩

/-- A well-formed training example used by the retrain demonstrations. -/
def goodEx : TrainEx := { text := some "easy money wire transfer", label := "scam" }

/-- A malformed (null-text) training example. -/
def badEx : TrainEx := { text := none, label := "scam" }

/-- Witness for C4: a well-formed singleton retrain equals training on the
extended corpus, while a retrain hitting the malformed second example
reports the failure with the trained model and its probe classification
unchanged. -/
theorem C4_retrain_midway_witness :
    (∀ ex ∈ [goodEx], ex.text ≠ none)
    ∧ badEx.text = none
    ∧ updateModel seedB [goodEx]
        = (trainB { seedB with docs := seedB.docs ++ newDocs [goodEx] }, none)
    ∧ (updateModel seedB [goodEx, badEx]).2 = some "TypeError"
    ∧ (updateModel seedB [goodEx, badEx]).1.trained = seedB.trained
    ∧ classifyB (updateModel seedB [goodEx, badEx]).1.trained "work from home probe"
        = classifyB seedB.trained "work from home probe" := by
  have h1 : ∀ ex ∈ [goodEx], ex.text ≠ none := by decide
  have h2 := (C4_retrain_midway seedB [goodEx] "work from home probe").1 h1
  have h3 := (C4_retrain_midway seedB [goodEx, badEx] "work from home probe").2
    [goodEx] badEx [] rfl rfl h1
  exact ⟨h1, rfl, h2, h3.1, h3.2.2.1, h3.2.2.2⟩
